import Mathlib

/-!
Verification of the SSH CA configuration endpoint (`pathCAWrite` and
`generateSSHKeyPair` in `builtin/logical/ssh/path_config_ca.go`).

The handler is embedded as a pure function.  External collaborators are
passed in as an environment:
* `ssh.ParsePrivateKey` and `parsePublicSSHKey` (library / helper parsers)
  become abstract parsers `String → Except String Unit`;
* `generateSSHKeyPair`'s successive invocations become an oracle
  `Nat → Except String (String × String)`, indexed by the number of
  generator calls already made in the request;
* the storage backend's `Put` becomes an oracle `Nat → Option String`
  (`none` = the n-th Put of the request succeeds, `some e` = it fails
  with error `e`), together with an association-list storage state.

The JSON serialization performed by `logical.StorageEntryJSON` is modelled
structurally: the value stored under `config/ca_bundle` is the
`signingBundle` record itself (marshalling a struct of strings with
`encoding/json` cannot fail, so the entry-construction error branch of the
Go code is vacuous in the model).
-/

/-- The `signingBundle` record persisted under `config/ca_bundle`; the Go
struct has a single recognized field `Certificate` holding the private-key
PEM text. -/
structure signingBundle where
  Certificate : String
deriving DecidableEq, Repr

/-- A value held in storage: either raw bytes (`logical.StorageEntry.Value`)
or the JSON-serialized `signingBundle` record, modelled structurally. -/
inductive StorageValue where
  | raw (value : String)
  | bundle (b : signingBundle)
deriving DecidableEq, Repr

/-- Storage as an association list; `put` prepends, `get` reads the most
recent write for the key. -/
abbrev Storage := List (String × StorageValue)

/-- Overwrite the value stored under `k`. -/
def Storage.put (s : Storage) (k : String) (v : StorageValue) : Storage :=
  (k, v) :: s

/-- Look up the current value stored under `k`. -/
def Storage.get (s : Storage) (k : String) : Option StorageValue :=
  (s.find? (fun e => e.fst == k)).map (fun e => e.snd)

/-- The inbound payload of the `config/ca` update.  `generate_signing_key`
has tri-state presence (`data.GetOk`): `none` = not supplied,
`some b` = supplied with value `b`.  The two key fields are strings where
the empty string denotes absence (`data.Get(...)`). -/
structure ConfigRequest where
  public_key : String
  private_key : String
  generate_signing_key : Option Bool
deriving DecidableEq, Repr

/-- Outcome of the handler, mirroring the `(*logical.Response, error)`
return of `pathCAWrite`:
`validationError msg` is `logical.ErrorResponse(msg), nil`;
`internalError msg` is `nil, err`; `success` is `nil, nil`. -/
inductive CAWriteResult where
  | validationError (msg : String)
  | internalError (msg : String)
  | success
deriving DecidableEq, Repr

/-- External collaborators of `pathCAWrite`. -/
structure Env where
  /-- `ssh.ParsePrivateKey`: the parsed value is discarded, only
  success or the error's text matters. -/
  parsePrivateKey : String → Except String Unit
  /-- `parsePublicSSHKey` (authorized-keys form). -/
  parsePublicSSHKey : String → Except String Unit
  /-- The n-th call to `generateSSHKeyPair` within the request, returning
  `(publicKey, privateKey)` or an error. -/
  gen : Nat → Except String (String × String)
  /-- The n-th `Storage.Put` of the request: `none` = success. -/
  putErr : Nat → Option String

/-- Everything observable about one run of the handler. -/
structure RunOutcome where
  result : CAWriteResult
  /-- Final storage state. -/
  storage : Storage
  /-- Number of `generateSSHKeyPair` invocations performed. -/
  genCalls : Nat
  /-- The successful `Storage.Put` calls, in the order they were made. -/
  puts : List (String × StorageValue)
deriving DecidableEq, Repr

/-- The tail of `pathCAWrite` after `generateSigningKey` has been resolved:
the empty-half invariant check, the `Put` of the raw public key under
`public_key`, and the `Put` of the `signingBundle` under
`config/ca_bundle`. -/
def putBoth (env : Env) (storage : Storage) (genCalls : Nat)
    (publicKey privateKey : String) : RunOutcome :=
  if publicKey = "" ∨ privateKey = "" then
    ⟨.internalError "failed to generate or parse the keys", storage, genCalls, []⟩
  else
    match env.putErr 0 with
    | some e => ⟨.internalError e, storage, genCalls, []⟩
    | none =>
      let storage1 := storage.put "public_key" (.raw publicKey)
      let bundle : signingBundle := ⟨privateKey⟩
      match env.putErr 1 with
      | some e =>
        ⟨.internalError e, storage1, genCalls, [("public_key", .raw publicKey)]⟩
      | none =>
        ⟨.success, storage1.put "config/ca_bundle" (.bundle bundle), genCalls,
          [("public_key", .raw publicKey), ("config/ca_bundle", .bundle bundle)]⟩

/-- The `if generateSigningKey { ... }` block after the switch: when the
flag is set the pair is regenerated (overwriting whatever the switch left
in `publicKey`/`privateKey`), then the two writes happen. -/
def regenAndPut (env : Env) (storage : Storage) (genCalls : Nat)
    (publicKey privateKey : String) (generateSigningKey : Bool) : RunOutcome :=
  if generateSigningKey then
    match env.gen genCalls with
    | .error e => ⟨.internalError e, storage, genCalls + 1, []⟩
    | .ok (pk, sk) => putBoth env storage (genCalls + 1) pk sk
  else
    putBoth env storage genCalls publicKey privateKey

/-- The second arm of the switch (`case ok, publicKey != "" && privateKey != ""`):
reject a missing half, then parse the private key and then the public key,
rejecting on the first parse failure; on success proceed with the supplied
pair and `generateSigningKey` still false. -/
def acceptExternal (env : Env) (storage : Storage)
    (publicKey privateKey : String) : RunOutcome :=
  if publicKey = "" then
    ⟨.validationError "missing public_key", storage, 0, []⟩
  else if privateKey = "" then
    ⟨.validationError "missing private_key", storage, 0, []⟩
  else
    match env.parsePrivateKey privateKey with
    | .error e =>
      ⟨.validationError ("Unable to parse private_key as an SSH private key: " ++ e),
        storage, 0, []⟩
    | .ok _ =>
      match env.parsePublicSSHKey publicKey with
      | .error e =>
        ⟨.validationError ("Unable to parse public_key as an SSH public key: " ++ e),
          storage, 0, []⟩
      | .ok _ => regenAndPut env storage 0 publicKey privateKey false

/-- Embedding of `(*backend).pathCAWrite`.  The Go switch is translated
arm by arm: explicit `generate_signing_key=true` first; then `case ok,
publicKey != "" && privateKey != ""` (flag explicitly false, or flag unset
with both halves supplied); then the zero-config arm; then the half-supplied
default. -/
def pathCAWrite (env : Env) (req : ConfigRequest) (storage : Storage) : RunOutcome :=
  let publicKey := req.public_key
  let privateKey := req.private_key
  match req.generate_signing_key with
  | some true =>
    if publicKey ≠ "" ∨ privateKey ≠ "" then
      ⟨.validationError
        "public_key and private_key must not be set when generate_signing_key is set to true",
        storage, 0, []⟩
    else
      regenAndPut env storage 0 publicKey privateKey true
  | some false => acceptExternal env storage publicKey privateKey
  | none =>
    if publicKey ≠ "" ∧ privateKey ≠ "" then
      acceptExternal env storage publicKey privateKey
    else if publicKey = "" ∧ privateKey = "" then
      match env.gen 0 with
      | .error e => ⟨.internalError e, storage, 1, []⟩
      | .ok (pk, sk) => regenAndPut env storage 1 pk sk true
    else
      ⟨.validationError
        "only one of public_key and private_key set; both must be set to use, or both must be blank to auto-generate",
        storage, 0, []⟩

/-! Embedding of `generateSSHKeyPair`.  The cryptographic library calls
(`crypto/rsa`, `crypto/x509`, `encoding/pem`, `golang.org/x/crypto/ssh`)
are external collaborators, modelled symbolically: an RSA key is an opaque
identity plus its requested modulus size, and the four encoders are
abstract functions supplied by a `CryptoEnv`. -/

/-- An RSA public key: an opaque identity plus the modulus size in bits. -/
structure RSAPublicKeyT where
  id : Nat
  bits : Nat
deriving DecidableEq, Repr

/-- An RSA private key, carrying its public half (`rsa.PrivateKey.PublicKey`). -/
structure RSAPrivateKeyT where
  publicKey : RSAPublicKeyT
deriving DecidableEq, Repr

/-- An `ssh.PublicKey` value, opaque to this core. -/
structure SSHPublicKeyT where
  id : Nat
deriving DecidableEq, Repr

/-- A `pem.Block`: type string, headers (the Go code sets `Headers: nil`),
and DER payload bytes. -/
structure PEMBlock where
  type : String
  headers : List (String × String)
  bytes : List Nat
deriving DecidableEq, Repr

/-- Modelled collaborator: `rsa.GenerateKey(rand.Reader, bits)` draws an
opaque key identity from the random source (or fails) and returns a key of
the requested modulus size. -/
def rsaGenerateKey (randomness : Except String Nat) (bits : Nat) :
    Except String RSAPrivateKeyT :=
  randomness.map (fun id => ⟨⟨id, bits⟩⟩)

/-- The abstract encoders used by `generateSSHKeyPair`. -/
structure CryptoEnv where
  /-- `x509.MarshalPKCS1PrivateKey`. -/
  marshalPKCS1PrivateKey : RSAPrivateKeyT → List Nat
  /-- `pem.EncodeToMemory`, composed with the conversion to `string`. -/
  pemEncodeToMemory : PEMBlock → String
  /-- `ssh.NewPublicKey` applied to an `*rsa.PublicKey`. -/
  sshNewPublicKey : RSAPublicKeyT → Except String SSHPublicKeyT
  /-- `ssh.MarshalAuthorizedKey`, composed with the conversion to `string`. -/
  sshMarshalAuthorizedKey : SSHPublicKeyT → String

/-- Embedding of `generateSSHKeyPair`: generate a 4096-bit RSA seed, wrap
its PKCS#1 serialization in a PEM block of type `"RSA PRIVATE KEY"`, derive
the SSH public key from the public half, and return
`(authorized-keys line, PEM text)`. -/
def generateSSHKeyPair (cenv : CryptoEnv) (randomness : Except String Nat) :
    Except String (String × String) :=
  match rsaGenerateKey randomness 4096 with
  | .error e => .error e
  | .ok privateSeed =>
    let privateBlock : PEMBlock :=
      ⟨"RSA PRIVATE KEY", [], cenv.marshalPKCS1PrivateKey privateSeed⟩
    match cenv.sshNewPublicKey privateSeed.publicKey with
    | .error e => .error e
    | .ok public =>
      .ok (cenv.sshMarshalAuthorizedKey public, cenv.pemEncodeToMemory privateBlock)

/-! Concrete instances used to exercise the definitions. -/

/-- A concrete environment: the parsers accept exactly the strings `"PUB"`
and `"PRIV"`, the generator yields a distinct pair on each call, and every
`Put` succeeds. -/
def testEnv : Env where
  parsePrivateKey := fun s => if s = "PRIV" then .ok () else .error "privbad"
  parsePublicSSHKey := fun s => if s = "PUB" then .ok () else .error "pubbad"
  gen := fun n => if n = 0 then .ok ("GPUB0", "GPRIV0") else .ok ("GPUB1", "GPRIV1")
  putErr := fun _ => none

/-- `testEnv` with the generator failing on every call. -/
def testEnvGenFail : Env :=
  { testEnv with gen := fun _ => .error "genboom" }

/-- `testEnv` with the second `Put` failing. -/
def testEnvPut2Fail : Env :=
  { testEnv with putErr := fun n => if n = 1 then some "putboom" else none }

/-- Shift the generator oracle of an environment by one call. -/
def shiftGen (env : Env) : Env :=
  { env with gen := fun n => env.gen (n + 1) }

/-- A concrete crypto environment for evaluating `generateSSHKeyPair`. -/
def testCryptoEnv : CryptoEnv where
  marshalPKCS1PrivateKey := fun k => [k.publicKey.id, k.publicKey.bits]
  pemEncodeToMemory := fun blk => blk.type ++ (if blk.bytes = [7, 4096] then "#7" else "#?")
  sshNewPublicKey := fun pk => .ok ⟨pk.id⟩
  sshMarshalAuthorizedKey := fun pk => if pk.id = 7 then "ssh-rsa AAAA7" else "ssh-rsa ?"

/-- A nonempty starting storage recording an older CA pair. -/
def testStorage : Storage :=
  [("public_key", .raw "OLDPUB"), ("config/ca_bundle", .bundle ⟨"OLDPRIV"⟩)]

/-- Helper: the persistence tail never returns a user-facing validation
error. -/
theorem putBoth_no_validationError (env : Env) (s : Storage) (g : Nat)
    (pk sk msg : String) : (putBoth env s g pk sk).result ≠ .validationError msg := by
  by_cases hemp : pk = "" ∨ sk = ""
  · simp [putBoth, hemp]
  · rcases h0 : env.putErr 0 with _ | e0 <;> rcases h1 : env.putErr 1 with _ | e1 <;>
      simp [putBoth, hemp, h0, h1]

/-- Helper: the regenerate-then-persist tail never returns a user-facing
validation error. -/
theorem regenAndPut_no_validationError (env : Env) (s : Storage) (g : Nat)
    (pk sk : String) (b : Bool) (msg : String) :
    (regenAndPut env s g pk sk b).result ≠ .validationError msg := by
  cases b with
  | false => simpa [regenAndPut] using putBoth_no_validationError env s g pk sk msg
  | true =>
    rcases hg : env.gen g with e | p
    · simp [regenAndPut, hg]
    · rcases p with ⟨a, c⟩
      simpa [regenAndPut, hg] using putBoth_no_validationError env s (g + 1) a c msg

/-- Helper: if the accept-external arm returns a validation error, storage
is unchanged and no write happened. -/
theorem acceptExternal_reject (env : Env) (s : Storage) (pk sk msg : String)
    (h : (acceptExternal env s pk sk).result = .validationError msg) :
    (acceptExternal env s pk sk).storage = s ∧ (acceptExternal env s pk sk).puts = [] := by
  by_cases hpk : pk = ""
  · simp [acceptExternal, hpk]
  · by_cases hsk : sk = ""
    · simp [acceptExternal, hpk, hsk]
    · rcases hp : env.parsePrivateKey sk with e | u
      · simp [acceptExternal, hpk, hsk, hp]
      · rcases hq : env.parsePublicSSHKey pk with e | u
        · simp [acceptExternal, hpk, hsk, hp, hq]
        · exfalso
          simp only [acceptExternal, hpk, hsk, hp, hq, if_neg] at h
          exact regenAndPut_no_validationError env s 0 pk sk false msg (by simpa using h)

/-- C5: any user-facing validation error leaves storage exactly as it was
and performs no storage write at all. -/
theorem C5_reject_means_no_write (env : Env) (req : ConfigRequest)
    (storage : Storage) (msg : String)
    (h : (pathCAWrite env req storage).result = .validationError msg) :
    (pathCAWrite env req storage).storage = storage ∧
    (pathCAWrite env req storage).puts = [] := by
  rcases req with ⟨pub, priv, gsk⟩
  rcases gsk with _ | b
  · by_cases h1 : pub ≠ "" ∧ priv ≠ ""
    · have h2 : (acceptExternal env storage pub priv).result = .validationError msg := by
        simpa [pathCAWrite, h1] using h
      simpa [pathCAWrite, h1] using acceptExternal_reject env storage pub priv msg h2
    · by_cases h2 : pub = "" ∧ priv = ""
      · exfalso
        rcases hg : env.gen 0 with e | p
        · simp [pathCAWrite, h1, h2, hg] at h
        · rcases p with ⟨a, c⟩
          have := regenAndPut_no_validationError env storage 1 a c true msg
          exact this (by simpa [pathCAWrite, h1, h2, hg] using h)
      · simp [pathCAWrite, h1, h2]
  · cases b with
    | false =>
      have h2 : (acceptExternal env storage pub priv).result = .validationError msg := by
        simpa [pathCAWrite] using h
      simpa [pathCAWrite] using acceptExternal_reject env storage pub priv msg h2
    | true =>
      by_cases h1 : pub ≠ "" ∨ priv ≠ ""
      · simp [pathCAWrite, h1]
      · exfalso
        have := regenAndPut_no_validationError env storage 0 pub priv true msg
        exact this (by simpa [pathCAWrite, h1] using h)

/-- Witness for C5 at a concretely rejected request. -/
theorem C5_reject_means_no_write_witness :
    (pathCAWrite testEnv ⟨"PUB", "", none⟩ testStorage).result
      = .validationError
        "only one of public_key and private_key set; both must be set to use, or both must be blank to auto-generate" ∧
    ((pathCAWrite testEnv ⟨"PUB", "", none⟩ testStorage).storage = testStorage ∧
     (pathCAWrite testEnv ⟨"PUB", "", none⟩ testStorage).puts = []) :=
  ⟨by decide,
    C5_reject_means_no_write testEnv ⟨"PUB", "", none⟩ testStorage
      "only one of public_key and private_key set; both must be set to use, or both must be blank to auto-generate"
      (by decide)⟩

/-- C1: when both key fields are non-empty and parse, and the flag is
absent or explicitly false, `pathCAWrite` succeeds (given working storage),
the value stored under `public_key` is exactly the supplied public key, and
the `Certificate` field of the record stored under `config/ca_bundle` is
exactly the supplied private key; no cross-check between the two halves is
required. -/
theorem C1_accept_external_persists_exactly (env : Env) (req : ConfigRequest)
    (storage : Storage)
    (hgen : req.generate_signing_key = none ∨ req.generate_signing_key = some false)
    (hpub : req.public_key ≠ "") (hpriv : req.private_key ≠ "")
    (hppriv : env.parsePrivateKey req.private_key = .ok ())
    (hppub : env.parsePublicSSHKey req.public_key = .ok ())
    (hput0 : env.putErr 0 = none) (hput1 : env.putErr 1 = none) :
    (pathCAWrite env req storage).result = .success ∧
    (pathCAWrite env req storage).storage.get "public_key"
      = some (.raw req.public_key) ∧
    (pathCAWrite env req storage).storage.get "config/ca_bundle"
      = some (.bundle ⟨req.private_key⟩) := by
  rcases hgen with hgen | hgen <;>
    simp [pathCAWrite, acceptExternal, regenAndPut, putBoth, Storage.put, Storage.get,
      hgen, hpub, hpriv, hppriv, hppub, hput0, hput1]

/-- Witness for C1 at a concrete request accepted by `testEnv`. -/
theorem C1_accept_external_persists_exactly_witness :
    ((⟨"PUB", "PRIV", none⟩ : ConfigRequest).generate_signing_key = none ∨
      (⟨"PUB", "PRIV", none⟩ : ConfigRequest).generate_signing_key = some false) ∧
    (⟨"PUB", "PRIV", none⟩ : ConfigRequest).public_key ≠ "" ∧
    (⟨"PUB", "PRIV", none⟩ : ConfigRequest).private_key ≠ "" ∧
    testEnv.parsePrivateKey "PRIV" = .ok () ∧
    testEnv.parsePublicSSHKey "PUB" = .ok () ∧
    testEnv.putErr 0 = none ∧ testEnv.putErr 1 = none ∧
    ((pathCAWrite testEnv ⟨"PUB", "PRIV", none⟩ testStorage).result = .success ∧
     (pathCAWrite testEnv ⟨"PUB", "PRIV", none⟩ testStorage).storage.get "public_key"
       = some (.raw "PUB") ∧
     (pathCAWrite testEnv ⟨"PUB", "PRIV", none⟩ testStorage).storage.get "config/ca_bundle"
       = some (.bundle ⟨"PRIV"⟩)) :=
  ⟨Or.inl rfl, by decide, by decide, by simp [testEnv], by simp [testEnv], rfl, rfl,
    C1_accept_external_persists_exactly testEnv ⟨"PUB", "PRIV", none⟩ testStorage
      (Or.inl rfl) (by decide) (by decide) (by simp [testEnv]) (by simp [testEnv]) rfl rfl⟩

/-- C2: when `generate_signing_key` is explicitly true and either key field
is non-empty, `pathCAWrite` returns the user-facing error response with
exactly the stated message, performs no generator call and no storage
write, and leaves storage unchanged. -/
theorem C2_explicit_true_with_keys_rejected (env : Env) (req : ConfigRequest)
    (storage : Storage) (hgen : req.generate_signing_key = some true)
    (hkeys : req.public_key ≠ "" ∨ req.private_key ≠ "") :
    pathCAWrite env req storage =
      ⟨.validationError
        "public_key and private_key must not be set when generate_signing_key is set to true",
        storage, 0, []⟩ := by
  simp [pathCAWrite, hgen, hkeys]

/-- Witness for C2 at a concrete request. -/
theorem C2_explicit_true_with_keys_rejected_witness :
    (⟨"PUB", "", some true⟩ : ConfigRequest).generate_signing_key = some true ∧
    ((⟨"PUB", "", some true⟩ : ConfigRequest).public_key ≠ "" ∨
      (⟨"PUB", "", some true⟩ : ConfigRequest).private_key ≠ "") ∧
    pathCAWrite testEnv ⟨"PUB", "", some true⟩ testStorage =
      ⟨.validationError
        "public_key and private_key must not be set when generate_signing_key is set to true",
        testStorage, 0, []⟩ :=
  ⟨rfl, by decide,
    C2_explicit_true_with_keys_rejected testEnv ⟨"PUB", "", some true⟩ testStorage rfl
      (by decide)⟩

/-- C3: when `generate_signing_key` is explicitly false and both key fields
are empty, the second switch arm fires and rejects with exactly
`"missing public_key"` (not the half-supplied message), leaving storage
unchanged. -/
theorem C3_explicit_false_both_empty_missing_public (env : Env) (storage : Storage) :
    pathCAWrite env ⟨"", "", some false⟩ storage =
      ⟨.validationError "missing public_key", storage, 0, []⟩ := by
  simp [pathCAWrite, acceptExternal]

/-- C4: when `generate_signing_key` is absent and exactly one key field is
non-empty, `pathCAWrite` rejects with exactly the half-supplied message and
leaves storage unchanged. -/
theorem C4_half_supplied_rejected (env : Env) (req : ConfigRequest)
    (storage : Storage) (hgen : req.generate_signing_key = none)
    (hone : (req.public_key ≠ "" ∧ req.private_key = "") ∨
            (req.public_key = "" ∧ req.private_key ≠ "")) :
    pathCAWrite env req storage =
      ⟨.validationError
        "only one of public_key and private_key set; both must be set to use, or both must be blank to auto-generate",
        storage, 0, []⟩ := by
  rcases hone with ⟨h1, h2⟩ | ⟨h1, h2⟩ <;> simp [pathCAWrite, hgen, h1, h2]

/-- Helper: a successful persistence tail wrote exactly the two records,
public key first. -/
theorem putBoth_success_shape (env : Env) (s : Storage) (g : Nat) (pk sk : String)
    (h : (putBoth env s g pk sk).result = .success) :
    (putBoth env s g pk sk).puts =
      [("public_key", .raw pk), ("config/ca_bundle", .bundle ⟨sk⟩)] ∧
    (putBoth env s g pk sk).storage =
      (s.put "public_key" (.raw pk)).put "config/ca_bundle" (.bundle ⟨sk⟩) := by
  by_cases hemp : pk = "" ∨ sk = ""
  · exfalso; simp [putBoth, hemp] at h
  · rcases h0 : env.putErr 0 with _ | e0
    · rcases h1 : env.putErr 1 with _ | e1
      · simp [putBoth, hemp, h0, h1]
      · exfalso; simp [putBoth, hemp, h0, h1] at h
    · exfalso; simp [putBoth, hemp, h0] at h

/-- Helper: a successful regenerate-then-persist tail wrote exactly two
records, public key first, both halves coming from one resolved pair. -/
theorem regenAndPut_success_shape (env : Env) (s : Storage) (g : Nat)
    (pk sk : String) (b : Bool)
    (h : (regenAndPut env s g pk sk b).result = .success) :
    ∃ p q, (regenAndPut env s g pk sk b).puts =
        [("public_key", .raw p), ("config/ca_bundle", .bundle ⟨q⟩)] ∧
      (regenAndPut env s g pk sk b).storage =
        (s.put "public_key" (.raw p)).put "config/ca_bundle" (.bundle ⟨q⟩) := by
  cases b with
  | false =>
    refine ⟨pk, sk, ?_⟩
    simpa [regenAndPut] using
      putBoth_success_shape env s g pk sk (by simpa [regenAndPut] using h)
  | true =>
    rcases hg : env.gen g with e | p
    · exfalso; simp [regenAndPut, hg] at h
    · rcases p with ⟨a, c⟩
      refine ⟨a, c, ?_⟩
      simpa [regenAndPut, hg] using
        putBoth_success_shape env s (g + 1) a c (by simpa [regenAndPut, hg] using h)

/-- Helper: a successful accept-external arm wrote exactly two records,
public key first. -/
theorem acceptExternal_success_shape (env : Env) (s : Storage) (pk sk : String)
    (h : (acceptExternal env s pk sk).result = .success) :
    ∃ p q, (acceptExternal env s pk sk).puts =
        [("public_key", .raw p), ("config/ca_bundle", .bundle ⟨q⟩)] ∧
      (acceptExternal env s pk sk).storage =
        (s.put "public_key" (.raw p)).put "config/ca_bundle" (.bundle ⟨q⟩) := by
  by_cases hpk : pk = ""
  · exfalso; simp [acceptExternal, hpk] at h
  · by_cases hsk : sk = ""
    · exfalso; simp [acceptExternal, hpk, hsk] at h
    · rcases hp : env.parsePrivateKey sk with e | u
      · exfalso; simp [acceptExternal, hpk, hsk, hp] at h
      · rcases hq : env.parsePublicSSHKey pk with e | u
        · exfalso; simp [acceptExternal, hpk, hsk, hp, hq] at h
        · simpa [acceptExternal, hpk, hsk, hp, hq] using
            regenAndPut_success_shape env s 0 pk sk false
              (by simpa [acceptExternal, hpk, hsk, hp, hq] using h)

/-- C6: a successful run performs exactly two storage writes in a fixed
order — the raw public key under `public_key` first, then the
`signingBundle` whose `Certificate` field is the private key of the same
resolved pair under `config/ca_bundle` — and the final storage is the
starting storage updated by exactly those two records.  The `success`
result itself is the empty response `(nil, nil)`. -/
theorem C6_success_writes_two_in_order (env : Env) (req : ConfigRequest)
    (storage : Storage)
    (h : (pathCAWrite env req storage).result = .success) :
    ∃ p q, (pathCAWrite env req storage).puts =
        [("public_key", .raw p), ("config/ca_bundle", .bundle ⟨q⟩)] ∧
      (pathCAWrite env req storage).storage =
        (storage.put "public_key" (.raw p)).put "config/ca_bundle" (.bundle ⟨q⟩) := by
  rcases req with ⟨pub, priv, gsk⟩
  rcases gsk with _ | b
  · by_cases h1 : pub ≠ "" ∧ priv ≠ ""
    · simpa [pathCAWrite, h1] using
        acceptExternal_success_shape env storage pub priv
          (by simpa [pathCAWrite, h1] using h)
    · by_cases h2 : pub = "" ∧ priv = ""
      · rcases hg : env.gen 0 with e | p
        · exfalso; simp [pathCAWrite, h1, h2, hg] at h
        · rcases p with ⟨a, c⟩
          simpa [pathCAWrite, h1, h2, hg] using
            regenAndPut_success_shape env storage 1 a c true
              (by simpa [pathCAWrite, h1, h2, hg] using h)
      · exfalso; simp [pathCAWrite, h1, h2] at h
  · cases b with
    | false =>
      simpa [pathCAWrite] using
        acceptExternal_success_shape env storage pub priv
          (by simpa [pathCAWrite] using h)
    | true =>
      by_cases h1 : pub ≠ "" ∨ priv ≠ ""
      · exfalso; simp [pathCAWrite, h1] at h
      · simpa [pathCAWrite, h1] using
          regenAndPut_success_shape env storage 0 pub priv true
            (by simpa [pathCAWrite, h1] using h)

/-- Witness for C6 at a concretely successful request. -/
theorem C6_success_writes_two_in_order_witness :
    (pathCAWrite testEnv ⟨"PUB", "PRIV", some false⟩ testStorage).result = .success ∧
    (∃ p q, (pathCAWrite testEnv ⟨"PUB", "PRIV", some false⟩ testStorage).puts =
        [("public_key", .raw p), ("config/ca_bundle", .bundle ⟨q⟩)] ∧
      (pathCAWrite testEnv ⟨"PUB", "PRIV", some false⟩ testStorage).storage =
        (testStorage.put "public_key" (.raw p)).put "config/ca_bundle" (.bundle ⟨q⟩)) :=
  ⟨by decide,
    C6_success_writes_two_in_order testEnv ⟨"PUB", "PRIV", some false⟩ testStorage
      (by decide)⟩

/-- C8: on the accept-external arm (flag explicitly false, or flag absent
with both halves non-empty), the private key is parsed first: a private-key
parse failure yields exactly its message regardless of the public key's
parsability (so when both halves fail, the private-key message wins), and a
public-key parse failure (with the private key parsing) yields exactly its
message; both leave storage unchanged. -/
theorem C8_parse_order_and_messages (env : Env) (req : ConfigRequest)
    (storage : Storage)
    (hgen : req.generate_signing_key = some false ∨ req.generate_signing_key = none)
    (hpub : req.public_key ≠ "") (hpriv : req.private_key ≠ "") :
    (∀ e, env.parsePrivateKey req.private_key = .error e →
        pathCAWrite env req storage =
          ⟨.validationError ("Unable to parse private_key as an SSH private key: " ++ e),
            storage, 0, []⟩) ∧
    (∀ e, env.parsePrivateKey req.private_key = .ok () →
        env.parsePublicSSHKey req.public_key = .error e →
        pathCAWrite env req storage =
          ⟨.validationError ("Unable to parse public_key as an SSH public key: " ++ e),
            storage, 0, []⟩) := by
  constructor
  · intro e he
    rcases hgen with hgen | hgen <;>
      simp [pathCAWrite, acceptExternal, hgen, hpub, hpriv, he]
  · intro e hok he
    rcases hgen with hgen | hgen <;>
      simp [pathCAWrite, acceptExternal, hgen, hpub, hpriv, hok, he]

/-- Witness for C8: with both halves unparsable under `testEnv`, the
private-key message is returned. -/
theorem C8_parse_order_and_messages_witness :
    ((⟨"b", "c", none⟩ : ConfigRequest).generate_signing_key = some false ∨
      (⟨"b", "c", none⟩ : ConfigRequest).generate_signing_key = none) ∧
    (⟨"b", "c", none⟩ : ConfigRequest).public_key ≠ "" ∧
    (⟨"b", "c", none⟩ : ConfigRequest).private_key ≠ "" ∧
    testEnv.parsePrivateKey "c" = .error "privbad" ∧
    pathCAWrite testEnv ⟨"b", "c", none⟩ testStorage =
      ⟨.validationError "Unable to parse private_key as an SSH private key: privbad",
        testStorage, 0, []⟩ :=
  ⟨Or.inr rfl, by decide, by decide, by simp [testEnv],
    (C8_parse_order_and_messages testEnv ⟨"b", "c", none⟩ testStorage (Or.inr rfl)
      (by decide) (by decide)).1 "privbad" (by simp [testEnv])⟩

/-- Helper: when the first Put succeeds and the second fails, the
persistence tail applied only the first write and propagated the second
error. -/
theorem putBoth_second_put_fails (env : Env) (s : Storage) (g : Nat)
    (pk sk e : String) (h0 : env.putErr 0 = none) (h1 : env.putErr 1 = some e)
    (hne : (putBoth env s g pk sk).puts ≠ []) :
    (putBoth env s g pk sk).result = .internalError e ∧
    (putBoth env s g pk sk).storage = s.put "public_key" (.raw pk) ∧
    (putBoth env s g pk sk).puts = [("public_key", .raw pk)] := by
  by_cases hemp : pk = "" ∨ sk = ""
  · exfalso; exact hne (by simp [putBoth, hemp])
  · simp [putBoth, hemp, h0, h1]

/-- Helper: the same for the regenerate-then-persist tail; the written
public key is the resolved one. -/
theorem regenAndPut_second_put_fails (env : Env) (s : Storage) (g : Nat)
    (pk sk : String) (b : Bool) (e : String)
    (h0 : env.putErr 0 = none) (h1 : env.putErr 1 = some e)
    (hne : (regenAndPut env s g pk sk b).puts ≠ []) :
    ∃ p, (regenAndPut env s g pk sk b).result = .internalError e ∧
      (regenAndPut env s g pk sk b).storage = s.put "public_key" (.raw p) ∧
      (regenAndPut env s g pk sk b).puts = [("public_key", .raw p)] := by
  cases b with
  | false =>
    have hh := putBoth_second_put_fails env s g pk sk e h0 h1
      (by simpa [regenAndPut] using hne)
    exact ⟨pk, by simpa [regenAndPut] using hh⟩
  | true =>
    rcases hg : env.gen g with er | p
    · exfalso; exact hne (by simp [regenAndPut, hg])
    · rcases p with ⟨a, c⟩
      have hh := putBoth_second_put_fails env s (g + 1) a c e h0 h1
        (by simpa [regenAndPut, hg] using hne)
      exact ⟨a, by simpa [regenAndPut, hg] using hh⟩

/-- Helper: the same for the accept-external arm. -/
theorem acceptExternal_second_put_fails (env : Env) (s : Storage) (pk sk e : String)
    (h0 : env.putErr 0 = none) (h1 : env.putErr 1 = some e)
    (hne : (acceptExternal env s pk sk).puts ≠ []) :
    ∃ p, (acceptExternal env s pk sk).result = .internalError e ∧
      (acceptExternal env s pk sk).storage = s.put "public_key" (.raw p) ∧
      (acceptExternal env s pk sk).puts = [("public_key", .raw p)] := by
  by_cases hpk : pk = ""
  · exfalso; exact hne (by simp [acceptExternal, hpk])
  · by_cases hsk : sk = ""
    · exfalso; exact hne (by simp [acceptExternal, hpk, hsk])
    · rcases hp : env.parsePrivateKey sk with er | u
      · exfalso; exact hne (by simp [acceptExternal, hpk, hsk, hp])
      · rcases hq : env.parsePublicSSHKey pk with er | u
        · exfalso; exact hne (by simp [acceptExternal, hpk, hsk, hp, hq])
        · simpa [acceptExternal, hpk, hsk, hp, hq] using
            regenAndPut_second_put_fails env s 0 pk sk false e h0 h1
              (by simpa [acceptExternal, hpk, hsk, hp, hq] using hne)

/-- C9: in any run whose first Put succeeded (it wrote something) and whose
second Put fails, the handler returns the storage error as an internal
error, the `public_key` record holds the newly written value, the
`config/ca_bundle` record retains its previous value, and the only
successful write of the run is the first one — there is no rollback. -/
theorem C9_second_put_failure_no_rollback (env : Env) (req : ConfigRequest)
    (storage : Storage) (e : String)
    (h0 : env.putErr 0 = none) (h1 : env.putErr 1 = some e)
    (hne : (pathCAWrite env req storage).puts ≠ []) :
    ∃ p, (pathCAWrite env req storage).result = .internalError e ∧
      (pathCAWrite env req storage).storage.get "public_key" = some (.raw p) ∧
      (pathCAWrite env req storage).storage.get "config/ca_bundle"
        = storage.get "config/ca_bundle" ∧
      (pathCAWrite env req storage).puts = [("public_key", .raw p)] := by
  have main : ∃ p, (pathCAWrite env req storage).result = .internalError e ∧
      (pathCAWrite env req storage).storage = storage.put "public_key" (.raw p) ∧
      (pathCAWrite env req storage).puts = [("public_key", .raw p)] := by
    rcases req with ⟨pub, priv, gsk⟩
    rcases gsk with _ | b
    · by_cases hcase1 : pub ≠ "" ∧ priv ≠ ""
      · simpa [pathCAWrite, hcase1] using
          acceptExternal_second_put_fails env storage pub priv e h0 h1
            (by simpa [pathCAWrite, hcase1] using hne)
      · by_cases hcase2 : pub = "" ∧ priv = ""
        · rcases hg : env.gen 0 with er | p
          · exfalso; exact hne (by simp [pathCAWrite, hcase1, hcase2, hg])
          · rcases p with ⟨a, c⟩
            simpa [pathCAWrite, hcase1, hcase2, hg] using
              regenAndPut_second_put_fails env storage 1 a c true e h0 h1
                (by simpa [pathCAWrite, hcase1, hcase2, hg] using hne)
        · exfalso; exact hne (by simp [pathCAWrite, hcase1, hcase2])
    · cases b with
      | false =>
        simpa [pathCAWrite] using
          acceptExternal_second_put_fails env storage pub priv e h0 h1
            (by simpa [pathCAWrite] using hne)
      | true =>
        by_cases hcase1 : pub ≠ "" ∨ priv ≠ ""
        · exfalso; exact hne (by simp [pathCAWrite, hcase1])
        · simpa [pathCAWrite, hcase1] using
            regenAndPut_second_put_fails env storage 0 pub priv true e h0 h1
              (by simpa [pathCAWrite, hcase1] using hne)
  rcases main with ⟨p, hres, hsto, hputs⟩
  exact ⟨p, hres, by simp [hsto, Storage.put, Storage.get],
    by simp [hsto, Storage.put, Storage.get], hputs⟩

/-- Witness for C9: `testEnvPut2Fail` fails the second Put on an otherwise
valid accept-external request. -/
theorem C9_second_put_failure_no_rollback_witness :
    testEnvPut2Fail.putErr 0 = none ∧
    testEnvPut2Fail.putErr 1 = some "putboom" ∧
    (pathCAWrite testEnvPut2Fail ⟨"PUB", "PRIV", none⟩ testStorage).puts ≠ [] ∧
    (∃ p, (pathCAWrite testEnvPut2Fail ⟨"PUB", "PRIV", none⟩ testStorage).result
        = .internalError "putboom" ∧
      (pathCAWrite testEnvPut2Fail ⟨"PUB", "PRIV", none⟩ testStorage).storage.get "public_key"
        = some (.raw p) ∧
      (pathCAWrite testEnvPut2Fail ⟨"PUB", "PRIV", none⟩ testStorage).storage.get "config/ca_bundle"
        = testStorage.get "config/ca_bundle" ∧
      (pathCAWrite testEnvPut2Fail ⟨"PUB", "PRIV", none⟩ testStorage).puts
        = [("public_key", .raw p)]) :=
  ⟨rfl, rfl, by decide,
    C9_second_put_failure_no_rollback testEnvPut2Fail ⟨"PUB", "PRIV", none⟩ testStorage
      "putboom" rfl rfl (by decide)⟩

/-- Witness for C4 at a concrete request. -/
theorem C4_half_supplied_rejected_witness :
    (⟨"PUB", "", none⟩ : ConfigRequest).generate_signing_key = none ∧
    (((⟨"PUB", "", none⟩ : ConfigRequest).public_key ≠ "" ∧
       (⟨"PUB", "", none⟩ : ConfigRequest).private_key = "") ∨
     ((⟨"PUB", "", none⟩ : ConfigRequest).public_key = "" ∧
       (⟨"PUB", "", none⟩ : ConfigRequest).private_key ≠ "")) ∧
    pathCAWrite testEnv ⟨"PUB", "", none⟩ testStorage =
      ⟨.validationError
        "only one of public_key and private_key set; both must be set to use, or both must be blank to auto-generate",
        testStorage, 0, []⟩ :=
  ⟨rfl, by decide,
    C4_half_supplied_rejected testEnv ⟨"PUB", "", none⟩ testStorage rfl (by decide)⟩

/-- C7: a successful run of `generateSSHKeyPair` returns as private key the
PEM encoding of a block of type `"RSA PRIVATE KEY"` (with nil headers)
holding the PKCS#1 serialization of a freshly generated key of the
requested 4096-bit size, and as public key the authorized-keys encoding of
that same key's public half; and a generation failure inside `pathCAWrite`
surfaces as an internal error, not a user-facing validation error. -/
theorem C7_generate_shape_and_failure (cenv : CryptoEnv)
    (randomness : Except String Nat) (pub priv : String)
    (hok : generateSSHKeyPair cenv randomness = .ok (pub, priv))
    (env : Env) (storage : Storage) (e : String)
    (hgenfail : env.gen 0 = .error e) :
    (∃ k pubk, rsaGenerateKey randomness 4096 = .ok k ∧
      k.publicKey.bits = 4096 ∧
      priv = cenv.pemEncodeToMemory ⟨"RSA PRIVATE KEY", [], cenv.marshalPKCS1PrivateKey k⟩ ∧
      cenv.sshNewPublicKey k.publicKey = .ok pubk ∧
      pub = cenv.sshMarshalAuthorizedKey pubk) ∧
    (pathCAWrite env ⟨"", "", some true⟩ storage).result = .internalError e := by
  constructor
  · rcases randomness with e0 | id
    · exfalso; simp [generateSSHKeyPair, rsaGenerateKey, Except.map] at hok
    · rcases hn : cenv.sshNewPublicKey (⟨id, 4096⟩ : RSAPublicKeyT) with er | pubk
      · exfalso; simp [generateSSHKeyPair, rsaGenerateKey, Except.map, hn] at hok
      · have hpair : cenv.sshMarshalAuthorizedKey pubk = pub ∧
            cenv.pemEncodeToMemory
              ⟨"RSA PRIVATE KEY", [],
                cenv.marshalPKCS1PrivateKey ⟨⟨id, 4096⟩⟩⟩ = priv := by
          simpa [generateSSHKeyPair, rsaGenerateKey, Except.map, hn] using hok
        exact ⟨⟨⟨id, 4096⟩⟩, pubk, rfl, rfl, hpair.2.symm, hn, hpair.1.symm⟩
  · simp [pathCAWrite, regenAndPut, hgenfail]

/-- Witness for C7 at a concrete crypto environment and random draw, with
a concretely failing generator inside the handler. -/
theorem C7_generate_shape_and_failure_witness :
    generateSSHKeyPair testCryptoEnv (.ok 7) = .ok ("ssh-rsa AAAA7", "RSA PRIVATE KEY#7") ∧
    testEnvGenFail.gen 0 = .error "genboom" ∧
    ((∃ k pubk, rsaGenerateKey (.ok 7) 4096 = .ok k ∧
        k.publicKey.bits = 4096 ∧
        "RSA PRIVATE KEY#7" = testCryptoEnv.pemEncodeToMemory
          ⟨"RSA PRIVATE KEY", [], testCryptoEnv.marshalPKCS1PrivateKey k⟩ ∧
        testCryptoEnv.sshNewPublicKey k.publicKey = .ok pubk ∧
        "ssh-rsa AAAA7" = testCryptoEnv.sshMarshalAuthorizedKey pubk) ∧
     (pathCAWrite testEnvGenFail ⟨"", "", some true⟩ testStorage).result
       = .internalError "genboom") :=
  ⟨by simp [generateSSHKeyPair, rsaGenerateKey, Except.map, testCryptoEnv], rfl,
    C7_generate_shape_and_failure testCryptoEnv (.ok 7) "ssh-rsa AAAA7" "RSA PRIVATE KEY#7"
      (by simp [generateSSHKeyPair, rsaGenerateKey, Except.map, testCryptoEnv])
      testEnvGenFail testStorage "genboom" rfl⟩

/-- Helper: the persistence tail reports the generator-call count it was
handed, in every branch. -/
theorem putBoth_genCalls (env : Env) (s : Storage) (g : Nat) (pk sk : String) :
    (putBoth env s g pk sk).genCalls = g := by
  by_cases hemp : pk = "" ∨ sk = ""
  · simp [putBoth, hemp]
  · rcases h0 : env.putErr 0 with _ | e0 <;> rcases h1 : env.putErr 1 with _ | e1 <;>
      simp [putBoth, hemp, h0, h1]

/-- Helper: the persistence tail's result, final storage and write trace do
not depend on the generator-call count, nor on anything in the environment
beyond the Put oracle. -/
theorem putBoth_congr (env env2 : Env) (s : Storage) (g g2 : Nat) (pk sk : String)
    (hp : env.putErr = env2.putErr) :
    (putBoth env s g pk sk).result = (putBoth env2 s g2 pk sk).result ∧
    (putBoth env s g pk sk).storage = (putBoth env2 s g2 pk sk).storage ∧
    (putBoth env s g pk sk).puts = (putBoth env2 s g2 pk sk).puts := by
  by_cases hemp : pk = "" ∨ sk = ""
  · simp [putBoth, hemp]
  · rcases h0 : env.putErr 0 with _ | e0 <;> rcases h1 : env.putErr 1 with _ | e1 <;>
      simp [putBoth, hemp, h0, h1, ← hp]

/-- C10: on the zero-config path (flag absent, both halves empty) the
generator is invoked twice and the pair produced inside the switch arm is
discarded: the run is observably equivalent (same result, same final
storage, same writes) to the explicit `generate_signing_key=true` path run
against the generator stream advanced by one call, and the persisted pair
is the second generated one. -/
theorem C10_zero_config_generates_twice (env : Env) (storage : Storage)
    (p : String × String) (h0 : env.gen 0 = .ok p) :
    (pathCAWrite env ⟨"", "", none⟩ storage).genCalls = 2 ∧
    (pathCAWrite (shiftGen env) ⟨"", "", some true⟩ storage).genCalls = 1 ∧
    (pathCAWrite env ⟨"", "", none⟩ storage).result
      = (pathCAWrite (shiftGen env) ⟨"", "", some true⟩ storage).result ∧
    (pathCAWrite env ⟨"", "", none⟩ storage).storage
      = (pathCAWrite (shiftGen env) ⟨"", "", some true⟩ storage).storage ∧
    (pathCAWrite env ⟨"", "", none⟩ storage).puts
      = (pathCAWrite (shiftGen env) ⟨"", "", some true⟩ storage).puts ∧
    (∀ pk sk, env.gen 1 = .ok (pk, sk) → pk ≠ "" → sk ≠ "" →
      env.putErr 0 = none → env.putErr 1 = none →
      (pathCAWrite env ⟨"", "", none⟩ storage).storage.get "public_key"
        = some (.raw pk) ∧
      (pathCAWrite env ⟨"", "", none⟩ storage).storage.get "config/ca_bundle"
        = some (.bundle ⟨sk⟩)) := by
  rcases p with ⟨a, b⟩
  have hsp : env.putErr = (shiftGen env).putErr := rfl
  rcases hg1 : env.gen 1 with er | q
  · refine ⟨?_, ?_, ?_, ?_, ?_, ?_⟩ <;>
      simp [pathCAWrite, regenAndPut, shiftGen, h0, hg1]
  · rcases q with ⟨pk0, sk0⟩
    obtain ⟨hres, hsto, hputs⟩ := putBoth_congr env (shiftGen env) storage 2 1 pk0 sk0 hsp
    refine ⟨?_, ?_, ?_, ?_, ?_, ?_⟩
    · simp [pathCAWrite, regenAndPut, h0, hg1, putBoth_genCalls]
    · simp [pathCAWrite, regenAndPut, shiftGen, hg1, putBoth_genCalls]
    · simpa [pathCAWrite, regenAndPut, shiftGen, h0, hg1] using hres
    · simpa [pathCAWrite, regenAndPut, shiftGen, h0, hg1] using hsto
    · simpa [pathCAWrite, regenAndPut, shiftGen, h0, hg1] using hputs
    · intro pk sk hgen1 hpk hsk hp0 hp1
      obtain ⟨rfl, rfl⟩ : pk0 = pk ∧ sk0 = sk := by
        simpa using hgen1
      simp [pathCAWrite, regenAndPut, putBoth, h0, hg1, hpk, hsk, hp0, hp1,
        Storage.put, Storage.get]

/-- Witness for C10 with the concrete generator of `testEnv`. -/
theorem C10_zero_config_generates_twice_witness :
    testEnv.gen 0 = .ok ("GPUB0", "GPRIV0") ∧
    ((pathCAWrite testEnv ⟨"", "", none⟩ testStorage).genCalls = 2 ∧
     (pathCAWrite (shiftGen testEnv) ⟨"", "", some true⟩ testStorage).genCalls = 1 ∧
     (pathCAWrite testEnv ⟨"", "", none⟩ testStorage).result
       = (pathCAWrite (shiftGen testEnv) ⟨"", "", some true⟩ testStorage).result ∧
     (pathCAWrite testEnv ⟨"", "", none⟩ testStorage).storage
       = (pathCAWrite (shiftGen testEnv) ⟨"", "", some true⟩ testStorage).storage ∧
     (pathCAWrite testEnv ⟨"", "", none⟩ testStorage).puts
       = (pathCAWrite (shiftGen testEnv) ⟨"", "", some true⟩ testStorage).puts ∧
     (∀ pk sk, testEnv.gen 1 = .ok (pk, sk) → pk ≠ "" → sk ≠ "" →
       testEnv.putErr 0 = none → testEnv.putErr 1 = none →
       (pathCAWrite testEnv ⟨"", "", none⟩ testStorage).storage.get "public_key"
         = some (.raw pk) ∧
       (pathCAWrite testEnv ⟨"", "", none⟩ testStorage).storage.get "config/ca_bundle"
         = some (.bundle ⟨sk⟩))) :=
  ⟨rfl, C10_zero_config_generates_twice testEnv testStorage ("GPUB0", "GPRIV0") rfl⟩
